import Mathlib

/-!
Verification of the nanogui display color-management pipeline.

This file gives a shallow embedding of the color-management subsystem:

* `src/src/chroma.cpp` — chromaticity-to-matrix engine (`rgb_to_xyz`,
  `xyz_to_rgb`, `chroma_to_rec709_matrix`, the standard primary sets, and the
  wp-protocol primaries-code dispatch `chroma_from_wp_primaries` /
  `ituth273::from_wp_primaries`).
* `src/src/colorpass.cpp` — the 8×8 Bayer dither matrix generator and the
  GLSL fragment shader: transfer functions (sRGB, BT.1886, xvYCC, ST240, PQ,
  HLG, log, ST428, gamma), the `toLinearRGB` / `fromLinearRGB` dispatchers,
  `transferWhiteLevel`, the luminance clamp, and the per-pixel `main`.
* `src/src/screen.cpp` — the SDR-white-level environment override read in
  `Screen::Screen` and the color-management shader construction with its
  try/catch in `Screen::initialize`.

Machine floats are modelled exactly by rationals (the chroma engine and
dither generator use only field operations, so the rational model computes
the same expressions the float code evaluates, without rounding), and the
shader's transcendental math is modelled over the real numbers with `rpow`,
`exp` and `log`.  C++ exceptions become `Except`.
-/

namespace Nanogui

/-- Exact value of `std::numeric_limits<float>::max()`, used by the
degeneracy guards in `rgb_to_xyz` (chroma.cpp:44,76-78). -/
def floatMax : ℚ := 2 ^ 128 - 2 ^ 104

/-- A CIE xy chromaticity coordinate (`Vector2f` in chroma.cpp). -/
structure Vec2 where
  x : ℚ
  y : ℚ
deriving DecidableEq

/-- A primary set: red, green, blue and white chromaticities
(`std::array<Vector2f, 4>` in chroma.cpp, indices 0..3). -/
structure Chroma where
  red : Vec2
  green : Vec2
  blue : Vec2
  white : Vec2
deriving DecidableEq

/-- Row-major 3×3 matrix (`Matrix3f` in nanogui). -/
structure Mat3 where
  m00 : ℚ
  m01 : ℚ
  m02 : ℚ
  m10 : ℚ
  m11 : ℚ
  m12 : ℚ
  m20 : ℚ
  m21 : ℚ
  m22 : ℚ
deriving DecidableEq

/-- The 3×3 identity matrix. -/
def mat3Id : Mat3 := ⟨1, 0, 0, 0, 1, 0, 0, 0, 1⟩

/-- Matrix product (row-major). -/
def matMul (A B : Mat3) : Mat3 :=
  ⟨A.m00 * B.m00 + A.m01 * B.m10 + A.m02 * B.m20,
   A.m00 * B.m01 + A.m01 * B.m11 + A.m02 * B.m21,
   A.m00 * B.m02 + A.m01 * B.m12 + A.m02 * B.m22,
   A.m10 * B.m00 + A.m11 * B.m10 + A.m12 * B.m20,
   A.m10 * B.m01 + A.m11 * B.m11 + A.m12 * B.m21,
   A.m10 * B.m02 + A.m11 * B.m12 + A.m12 * B.m22,
   A.m20 * B.m00 + A.m21 * B.m10 + A.m22 * B.m20,
   A.m20 * B.m01 + A.m21 * B.m11 + A.m22 * B.m21,
   A.m20 * B.m02 + A.m21 * B.m12 + A.m22 * B.m22⟩

/-- Determinant of a 3×3 matrix. -/
def matDet (A : Mat3) : ℚ :=
  A.m00 * (A.m11 * A.m22 - A.m12 * A.m21) -
  A.m01 * (A.m10 * A.m22 - A.m12 * A.m20) +
  A.m02 * (A.m10 * A.m21 - A.m11 * A.m20)

/-- Modelled from the spec: the `inverse(Matrix3f)` routine called by
`xyz_to_rgb` (chroma.cpp:113) lives in nanogui's vector/matrix header, which
is not among the provided sources.  The spec (§4.1) states that
`XYZ_to_primaries` is the exact matrix inverse of `primaries_to_XYZ`, so we
model `inverse` as the exact 3×3 inverse, by the adjugate-over-determinant
formula. -/
def matInverse (A : Mat3) : Mat3 :=
  let d := matDet A
  ⟨(A.m11 * A.m22 - A.m12 * A.m21) / d,
   (A.m02 * A.m21 - A.m01 * A.m22) / d,
   (A.m01 * A.m12 - A.m02 * A.m11) / d,
   (A.m12 * A.m20 - A.m10 * A.m22) / d,
   (A.m00 * A.m22 - A.m02 * A.m20) / d,
   (A.m02 * A.m10 - A.m00 * A.m12) / d,
   (A.m10 * A.m21 - A.m11 * A.m20) / d,
   (A.m01 * A.m20 - A.m00 * A.m21) / d,
   (A.m00 * A.m11 - A.m01 * A.m10) / d⟩

/-- The two `std::invalid_argument` throw sites of `rgb_to_xyz`
(chroma.cpp:46-47 and 83-84); both are degenerate-input failures. -/
inductive ChromaError where
  | degenerateWhite
  | degenerateMatrix
deriving DecidableEq

/-- Determinant over the three primaries' chromaticities, exactly the `d` of
chroma.cpp:57-59; it vanishes precisely when the primaries are collinear. -/
def primariesDet (ch : Chroma) : ℚ :=
  ch.red.x * (ch.blue.y - ch.green.y) +
  ch.blue.x * (ch.green.y - ch.red.y) +
  ch.green.x * (ch.red.y - ch.blue.y)

/-- Embedding of `rgb_to_xyz` (chroma.cpp:24-110), the OpenEXR
`ImfChromaticities` RGB-to-XYZ matrix construction, with its two
degenerate-input guards. -/
def rgb_to_xyz (ch : Chroma) (Y : ℚ) : Except ChromaError Mat3 :=
  if |ch.white.y| ≤ 1 ∧ |ch.white.x * Y| ≥ |ch.white.y| * floatMax then
    Except.error ChromaError.degenerateWhite
  else
    let X := ch.white.x * Y / ch.white.y
    let Z := (1 - ch.white.x - ch.white.y) * Y / ch.white.y
    let d := primariesDet ch
    let SrN :=
      X * (ch.blue.y - ch.green.y) -
      ch.green.x * (Y * (ch.blue.y - 1) + ch.blue.y * (X + Z)) +
      ch.blue.x * (Y * (ch.green.y - 1) + ch.green.y * (X + Z))
    let SgN :=
      X * (ch.red.y - ch.blue.y) +
      ch.red.x * (Y * (ch.blue.y - 1) + ch.blue.y * (X + Z)) -
      ch.blue.x * (Y * (ch.red.y - 1) + ch.red.y * (X + Z))
    let SbN :=
      X * (ch.green.y - ch.red.y) -
      ch.red.x * (Y * (ch.green.y - 1) + ch.green.y * (X + Z)) +
      ch.green.x * (Y * (ch.red.y - 1) + ch.red.y * (X + Z))
    if |d| < 1 ∧ (|SrN| ≥ |d| * floatMax ∨ |SgN| ≥ |d| * floatMax ∨
                  |SbN| ≥ |d| * floatMax) then
      Except.error ChromaError.degenerateMatrix
    else
      let Sr := SrN / d
      let Sg := SgN / d
      let Sb := SbN / d
      Except.ok
        ⟨Sr * ch.red.x, Sr * ch.red.y, Sr * (1 - ch.red.x - ch.red.y),
         Sg * ch.green.x, Sg * ch.green.y, Sg * (1 - ch.green.x - ch.green.y),
         Sb * ch.blue.x, Sb * ch.blue.y, Sb * (1 - ch.blue.x - ch.blue.y)⟩

/-- Embedding of `xyz_to_rgb` (chroma.cpp:112-114):
`inverse(rgb_to_xyz(chroma, Y))`, with the exception propagating. -/
def xyz_to_rgb (ch : Chroma) (Y : ℚ) : Except ChromaError Mat3 :=
  (rgb_to_xyz ch Y).map matInverse

/-- D65 white point (chroma.cpp:116). -/
def white_d65 : Vec2 := ⟨31271 / 100000, 32902 / 100000⟩

/-- Equal-energy white point (chroma.cpp:117). -/
def white_center : Vec2 := ⟨333333 / 1000000, 333333 / 1000000⟩

/-- Illuminant C white point (chroma.cpp:118). -/
def white_c : Vec2 := ⟨310 / 1000, 316 / 1000⟩

/-- DCI white point (chroma.cpp:119). -/
def white_dci : Vec2 := ⟨314 / 1000, 351 / 1000⟩

/-- Rec.709 primaries (chroma.cpp:121-130). -/
def rec709_chroma : Chroma :=
  ⟨⟨6400 / 10000, 3300 / 10000⟩, ⟨3000 / 10000, 6000 / 10000⟩,
   ⟨1500 / 10000, 600 / 10000⟩, white_d65⟩

/-- Adobe RGB (1998) primaries (chroma.cpp:132-141). -/
def adobe_chroma : Chroma :=
  ⟨⟨6400 / 10000, 3300 / 10000⟩, ⟨2100 / 10000, 7100 / 10000⟩,
   ⟨1500 / 10000, 600 / 10000⟩, white_d65⟩

/-- Display P3 primaries (chroma.cpp:154-163). -/
def display_p3_chroma : Chroma :=
  ⟨⟨6800 / 10000, 3200 / 10000⟩, ⟨2650 / 10000, 6900 / 10000⟩,
   ⟨1500 / 10000, 600 / 10000⟩, white_d65⟩

/-- DCI-P3 primaries (chroma.cpp:165-174). -/
def dci_p3_chroma : Chroma :=
  ⟨⟨6800 / 10000, 3200 / 10000⟩, ⟨2650 / 10000, 6900 / 10000⟩,
   ⟨1500 / 10000, 600 / 10000⟩, white_dci⟩

/-- BT.2020 primaries (chroma.cpp:176-185). -/
def bt2020_chroma : Chroma :=
  ⟨⟨7080 / 10000, 2920 / 10000⟩, ⟨1700 / 10000, 7970 / 10000⟩,
   ⟨1310 / 10000, 460 / 10000⟩, white_d65⟩

/-- Embedding of `chroma_to_rec709_matrix` (chroma.cpp:191-193):
`xyz_to_rgb(rec709_chroma(), 1) * rgb_to_xyz(chroma, 1)`, with exceptions
from either factor propagating. -/
def chroma_to_rec709_matrix (ch : Chroma) : Except ChromaError Mat3 := do
  let a ← xyz_to_rgb rec709_chroma 1
  let b ← rgb_to_xyz ch 1
  return matMul a b

/-- The ITU-T H.273 `ColorPrimaries` enumeration handled by chroma.cpp's
`ituth273` namespace (chroma.cpp:216-301). -/
inductive ColorPrimaries where
  | BT709
  | Unspecified
  | BT470M
  | BT470BG
  | SMPTE170M
  | SMPTE240M
  | Film
  | BT2020
  | SMPTE428
  | SMPTE431
  | SMPTE432
  | Weird
deriving DecidableEq

/-- Embedding of `ituth273::chroma` (chroma.cpp:235-301).  The `Unspecified`
case prints a warning and returns Rec.709 (chroma.cpp:239); the function
never fails. -/
def ituth273Chroma (p : ColorPrimaries) : Chroma :=
  match p with
  | ColorPrimaries.BT709 => rec709_chroma
  | ColorPrimaries.Unspecified => rec709_chroma
  | ColorPrimaries.BT470M =>
      ⟨⟨6700 / 10000, 3300 / 10000⟩, ⟨2100 / 10000, 7100 / 10000⟩,
       ⟨1400 / 10000, 800 / 10000⟩, white_c⟩
  | ColorPrimaries.BT470BG =>
      ⟨⟨6400 / 10000, 3300 / 10000⟩, ⟨2900 / 10000, 6000 / 10000⟩,
       ⟨1500 / 10000, 600 / 10000⟩, white_d65⟩
  | ColorPrimaries.SMPTE170M =>
      ⟨⟨6300 / 10000, 3400 / 10000⟩, ⟨3100 / 10000, 5950 / 10000⟩,
       ⟨1550 / 10000, 700 / 10000⟩, white_d65⟩
  | ColorPrimaries.SMPTE240M =>
      ⟨⟨6300 / 10000, 3400 / 10000⟩, ⟨3100 / 10000, 5950 / 10000⟩,
       ⟨1550 / 10000, 700 / 10000⟩, white_d65⟩
  | ColorPrimaries.Film =>
      ⟨⟨6810 / 10000, 3190 / 10000⟩, ⟨2430 / 10000, 6920 / 10000⟩,
       ⟨1450 / 10000, 490 / 10000⟩, white_c⟩
  | ColorPrimaries.BT2020 => bt2020_chroma
  | ColorPrimaries.SMPTE428 =>
      ⟨⟨1, 0⟩, ⟨0, 1⟩, ⟨0, 0⟩, white_center⟩
  | ColorPrimaries.SMPTE431 => dci_p3_chroma
  | ColorPrimaries.SMPTE432 => display_p3_chroma
  | ColorPrimaries.Weird =>
      ⟨⟨6300 / 10000, 3400 / 10000⟩, ⟨2950 / 10000, 6050 / 10000⟩,
       ⟨1550 / 10000, 770 / 10000⟩, white_d65⟩

/-- Embedding of `ituth273::from_wp_primaries` (chroma.cpp:303-317): maps the
integer wp-protocol primaries code to the H.273 enumeration; every code
outside 1..9 throws `std::invalid_argument`. -/
def from_wp_primaries (wp : ℤ) : Except String ColorPrimaries :=
  if wp = 1 then Except.ok ColorPrimaries.BT709
  else if wp = 2 then Except.ok ColorPrimaries.BT470M
  else if wp = 3 then Except.ok ColorPrimaries.BT470BG
  else if wp = 4 then Except.ok ColorPrimaries.SMPTE170M
  else if wp = 5 then Except.ok ColorPrimaries.Film
  else if wp = 6 then Except.ok ColorPrimaries.BT2020
  else if wp = 7 then Except.ok ColorPrimaries.SMPTE428
  else if wp = 8 then Except.ok ColorPrimaries.SMPTE431
  else if wp = 9 then Except.ok ColorPrimaries.SMPTE432
  else Except.error ("Unknown wp color primaries: " ++ toString wp)

/-- Embedding of `chroma_from_wp_primaries` (chroma.cpp:195-202): code 10 is
special-cased to Adobe RGB; everything else goes through
`ituth273::from_wp_primaries`, whose exception propagates. -/
def chroma_from_wp_primaries (wp : ℤ) : Except String Chroma :=
  if wp = 10 then Except.ok adobe_chroma
  else (from_wp_primaries wp).map ituth273Chroma

/-! Dither matrix generator, colorpass.cpp:28-49. -/

/-- The canonical 8×8 Bayer index matrix initialising `mat` in
`dither_matrix` (colorpass.cpp:34-43), row-major. -/
def bayerIndices : List ℕ :=
  [0, 32, 8, 40, 2, 34, 10, 42,
   48, 16, 56, 24, 50, 18, 58, 26,
   12, 44, 4, 36, 14, 46, 6, 38,
   60, 28, 52, 20, 62, 30, 54, 22,
   3, 35, 11, 43, 1, 33, 9, 41,
   51, 19, 59, 27, 49, 17, 57, 25,
   15, 47, 7, 39, 13, 45, 5, 37,
   63, 31, 55, 23, 61, 29, 53, 21]

/-- Embedding of `dither_matrix` (colorpass.cpp:32-49): every entry `v` of
the Bayer matrix becomes `(v / 8 / 8 - 0.5) * scale`. -/
def dither_matrix (scale : ℚ) : List ℚ :=
  bayerIndices.map (fun v : ℕ => ((v : ℚ) / 8 / 8 - 1 / 2) * scale)

/-! Transfer-function library: the GLSL fragment shader of
colorpass.cpp:76-348 (duplicated in screen.cpp:615-887).  All vec3
operations are componentwise, so the functions are modelled per channel over
the real numbers. -/

/-- GLSL `sign` applied per channel. -/
noncomputable def glslSign (x : ℝ) : ℝ :=
  if x < 0 then -1 else if 0 < x then 1 else 0

/-- Shared linear-plus-power pattern of the forward transfer functions,
`tfLinPow` (colorpass.cpp:212-217): `mixb(hi, lo, isLow)` selects the linear
branch when the channel value is at most the threshold. -/
noncomputable def tfLinPow (x gamma thres scale alpha : ℝ) : ℝ :=
  if x ≤ thres then x * scale
  else x ^ (1 / gamma) * alpha - (alpha - 1)

/-- Shared linear-plus-power pattern of the inverse transfer functions,
`tfInvLinPow` (colorpass.cpp:165-170). -/
noncomputable def tfInvLinPow (x gamma thres scale alpha : ℝ) : ℝ :=
  if x ≤ thres * scale then x / scale
  else ((x + alpha - 1) / alpha) ^ gamma

/-- Forward sRGB OETF, `tfSRGB` (colorpass.cpp:219-221), with the constants
of colorpass.cpp:105-108. -/
noncomputable def tfSRGB (x : ℝ) : ℝ :=
  tfLinPow x 2.4 0.0031308 12.92 1.055

/-- Inverse sRGB EOTF, `tfInvSRGB` (colorpass.cpp:172-174). -/
noncomputable def tfInvSRGB (x : ℝ) : ℝ :=
  tfInvLinPow x 2.4 0.0031308 12.92 1.055

/-- Forward extended sRGB, `tfExtSRGB` (colorpass.cpp:223-226): the sRGB
curve mirrored around 0. -/
noncomputable def tfExtSRGB (x : ℝ) : ℝ := glslSign x * tfSRGB |x|

/-- Inverse extended sRGB, `tfInvExtSRGB` (colorpass.cpp:176-179). -/
noncomputable def tfInvExtSRGB (x : ℝ) : ℝ := glslSign x * tfInvSRGB |x|

/-- BT.1886 threshold constant `BT1886_CUT` (colorpass.cpp:111). -/
def bt1886Cut : ℝ := 0.018053968510807

/-- Forward BT.1886 OETF, `tfBT1886` (colorpass.cpp:228-230), with the
constants of colorpass.cpp:110-113. -/
noncomputable def tfBT1886 (x : ℝ) : ℝ :=
  tfLinPow x (1 / 0.45) bt1886Cut 4.5 (1 + 5.5 * bt1886Cut)

/-- Inverse BT.1886 EOTF, `tfInvBT1886` (colorpass.cpp:181-183). -/
noncomputable def tfInvBT1886 (x : ℝ) : ℝ :=
  tfInvLinPow x (1 / 0.45) bt1886Cut 4.5 (1 + 5.5 * bt1886Cut)

/-- Forward xvYCC, `tfXVYCC` (colorpass.cpp:232-236): the BT.1886 curve
mirrored around 0. -/
noncomputable def tfXVYCC (x : ℝ) : ℝ := glslSign x * tfBT1886 |x|

/-- Inverse xvYCC, `tfInvXVYCC` (colorpass.cpp:185-189). -/
noncomputable def tfInvXVYCC (x : ℝ) : ℝ := glslSign x * tfInvBT1886 |x|

/-- Forward ST240 OETF, `tfST240` (colorpass.cpp:238-240), with the
constants of colorpass.cpp:116-119. -/
noncomputable def tfST240 (x : ℝ) : ℝ :=
  tfLinPow x (1 / 0.45) 0.0228 4.0 1.1115

/-- Inverse ST240 EOTF, `tfInvST240` (colorpass.cpp:191-193). -/
noncomputable def tfInvST240 (x : ℝ) : ℝ :=
  tfInvLinPow x (1 / 0.45) 0.0228 4.0 1.1115

/-- Forward PQ, `tfPQ` (colorpass.cpp:197-203), with the ST2084 constants of
colorpass.cpp:124-130. -/
noncomputable def tfPQ (x : ℝ) : ℝ :=
  let E := (max x 0) ^ (0.1593017578125 : ℝ)
  ((0.8359375 + 18.8515625 * E) / max (1 + 18.6875 * E) 1e-5) ^ (78.84375 : ℝ)

/-- Inverse PQ, `tfInvPQ` (colorpass.cpp:146-152). -/
noncomputable def tfInvPQ (x : ℝ) : ℝ :=
  let E := (max x 0) ^ ((1 : ℝ) / 78.84375)
  ((max (E - 0.8359375) 0) / max (18.8515625 - 18.6875 * E) 1e-5) ^
    ((1 : ℝ) / 0.1593017578125)

/-- Forward HLG, `tfHLG` (colorpass.cpp:205-210), with the constants of
colorpass.cpp:132-136. -/
noncomputable def tfHLG (x : ℝ) : ℝ :=
  if x ≤ 1 / 12 then Real.sqrt (max x 0 * 3)
  else 0.17883277 * Real.log (max (12 * x - 0.28466892) 0.0001) + 0.55991073

/-- Inverse HLG, `tfInvHLG` (colorpass.cpp:154-159). -/
noncomputable def tfInvHLG (x : ℝ) : ℝ :=
  if x ≤ 0.5 then x * x / 3
  else (Real.exp ((x - 0.55991073) / 0.17883277) + 0.28466892) / 12

/-- Embedding of the `toLinearRGB` dispatcher (colorpass.cpp:242-272),
branching on the `CM_TRANSFER_FUNCTION_*` codes of colorpass.cpp:91-103;
the final `else` falls back to `tfInvSRGB`. -/
noncomputable def toLinearRGB (x : ℝ) (tf : ℤ) : ℝ :=
  if tf = 5 then x
  else if tf = 11 then tfInvPQ x
  else if tf = 2 then (max x 0) ^ (2.2 : ℝ)
  else if tf = 3 then (max x 0) ^ (2.8 : ℝ)
  else if tf = 13 then tfInvHLG x
  else if tf = 10 then tfInvExtSRGB x
  else if tf = 1 then tfInvBT1886 x
  else if tf = 4 then tfInvST240 x
  else if tf = 6 then
    if x ≤ 0 then 0 else Real.exp ((x - 1) * 2 * Real.log 10)
  else if tf = 7 then
    if x ≤ 0 then 0 else Real.exp ((x - 1) * 2.5 * Real.log 10)
  else if tf = 8 then tfInvXVYCC x
  else if tf = 12 then (max x 0) ^ (2.6 : ℝ) * (52.37 / 48.0)
  else if tf = 9 then tfInvSRGB x
  else tfInvSRGB x

/-- Embedding of the `fromLinearRGB` dispatcher (colorpass.cpp:274-304);
the final `else` falls back to `tfSRGB`. -/
noncomputable def fromLinearRGB (x : ℝ) (tf : ℤ) : ℝ :=
  if tf = 5 then x
  else if tf = 11 then tfPQ x
  else if tf = 2 then (max x 0) ^ ((1 : ℝ) / 2.2)
  else if tf = 3 then (max x 0) ^ ((1 : ℝ) / 2.8)
  else if tf = 13 then tfHLG x
  else if tf = 10 then tfExtSRGB x
  else if tf = 1 then tfBT1886 x
  else if tf = 4 then tfST240 x
  else if tf = 6 then
    if x ≤ 0.01 then 0 else 1 + Real.log x / Real.log 10 / 2
  else if tf = 7 then
    if x ≤ Real.sqrt 10 / 1000 then 0 else 1 + Real.log x / Real.log 10 / 2.5
  else if tf = 8 then tfXVYCC x
  else if tf = 12 then (max x 0 / (52.37 / 48.0)) ^ ((1 : ℝ) / 2.6)
  else if tf = 9 then tfSRGB x
  else tfSRGB x

/-- Embedding of `transferWhiteLevel` (colorpass.cpp:306-318): the nominal
white level in nits of each output transfer function. -/
def transferWhiteLevel (tf : ℤ) : ℝ :=
  if tf = 11 then 10000
  else if tf = 13 then 1000
  else if tf = 1 then 100
  else if tf = 8 then 100
  else 80

/-- An RGB triple of linear-light or code values (GLSL `vec3`). -/
structure Vec3R where
  r : ℝ
  g : ℝ
  b : ℝ

/-- Componentwise application of a scalar function to a `vec3`. -/
noncomputable def vmap (f : ℝ → ℝ) (v : Vec3R) : Vec3R := ⟨f v.r, f v.g, f v.b⟩

/-- Application of the row-major `display_color_matrix` uniform (a `Mat3`
produced by the chroma engine, exact over ℚ) to a `vec3`. -/
noncomputable def matVec (M : Mat3) (v : Vec3R) : Vec3R :=
  ⟨(M.m00 : ℝ) * v.r + (M.m01 : ℝ) * v.g + (M.m02 : ℝ) * v.b,
   (M.m10 : ℝ) * v.r + (M.m11 : ℝ) * v.g + (M.m12 : ℝ) * v.b,
   (M.m20 : ℝ) * v.r + (M.m21 : ℝ) * v.g + (M.m22 : ℝ) * v.b⟩

/-- The luminance-clamp stage of the fragment shader's `main`
(colorpass.cpp:334-336): the hard clamp to `[min_luminance, max_luminance]`
runs exactly when `max_luminance > 0`. -/
noncomputable def luminanceClamp (minLum maxLum : ℝ) (v : Vec3R) : Vec3R :=
  if 0 < maxLum then vmap (fun x => min (max x minLum) maxLum) v else v

/-- Embedding of the fragment shader's `main` (colorpass.cpp:324-347) for
one pixel.  The source color is converted to linear light with the inverse
extended-sRGB EOTF (code 10), scaled by the SDR white level, mapped by the
display color matrix, optionally luminance-clamped, normalized by the output
transfer function's white level, encoded with the forward OETF, offset by
the dither value sampled for this pixel (a scalar added to all channels,
colorpass.cpp:321), and optionally clipped to the unit interval. -/
noncomputable def colorPassPixel (M : Mat3) (sdrWhiteLevel minLum maxLum : ℝ)
    (tf : ℤ) (ditherVal : ℝ) (clipToUnit : Bool) (c : Vec3R) : Vec3R :=
  let linear := vmap (fun x => toLinearRGB x 10) c
  let nits := matVec M (vmap (fun x => sdrWhiteLevel * x) linear)
  let nitsClamped := luminanceClamp minLum maxLum nits
  let encoded := vmap
    (fun x => fromLinearRGB (x / transferWhiteLevel tf) tf + ditherVal)
    nitsClamped
  if clipToUnit then vmap (fun x => min (max x 0) 1) encoded else encoded

/-- The display color matrix computed once per frame by
`ColorPass::configure` (colorpass.cpp:402-403):
`inverse(chroma_to_rec709_matrix(display_chroma))`. -/
def displayColorMatrix (ch : Chroma) : Except ChromaError Mat3 :=
  (chroma_to_rec709_matrix ch).map matInverse

/-! Screen integration glue, screen.cpp. -/

/-- Modelled from the spec: the environment override is "parsed as a
floating-point nits value" via `std::stof` (screen.cpp:292), which is C++
standard-library code outside this repository.  This models `std::stof` on
plain decimal inputs: optional sign, digits, optional fractional part; when
no digits can be converted (as for the empty string) `std::stof` throws
`std::invalid_argument`.  Hex/exponent/infinity forms and leading
whitespace, which no claim exercises, are not modelled. -/
def stofModel (s : String) : Except String ℚ :=
  let cs := s.toList
  let signAndRest : ℚ × List Char :=
    match cs with
    | '-' :: rest => (-1, rest)
    | '+' :: rest => (1, rest)
    | _ => (1, cs)
  let intPart := signAndRest.2.takeWhile Char.isDigit
  let afterInt := signAndRest.2.dropWhile Char.isDigit
  let fracPart : List Char :=
    match afterInt with
    | '.' :: rest => rest.takeWhile Char.isDigit
    | _ => []
  if intPart.isEmpty && fracPart.isEmpty then
    Except.error "stof: invalid_argument"
  else
    let digitsVal : List Char → ℕ :=
      fun ds => ds.foldl (fun n c => 10 * n + (c.toNat - 48)) 0
    Except.ok (signAndRest.1 *
      ((digitsVal intPart : ℚ) + (digitsVal fracPart : ℚ) / 10 ^ fracPart.length))

/-- Embedding of the SDR-white-level initialisation in `Screen::Screen`
(screen.cpp:290-292): `getenv` yields `none` when the variable is absent
(the queried level stays authoritative) and `some s` otherwise, in which
case the value is parsed with `std::stof` and overrides the query; a parse
failure propagates as an exception out of the constructor. -/
def screenInitSdrWhiteLevel (env : Option String) (queried : ℚ) :
    Except String ℚ :=
  match env with
  | none => Except.ok queried
  | some s => stofModel s

/-- Outcome of the color-management block of `Screen::initialize`. -/
inductive CmInitOutcome where
  | completed
  | nullShaderDeref
deriving DecidableEq

/-- Embedding of the color-management shader construction in
`Screen::initialize` (screen.cpp:889-898).  The `try` block assigns
`m_cm_shader`; a `ShaderCompilationFailure` is caught and logged, leaving
`m_cm_shader` null.  Control then falls through to
`m_cm_shader->set_buffer(...)` (screen.cpp:896) unconditionally, which
dereferences the shader pointer. -/
def screenCmShaderInit (shaderCompiles : Bool) : CmInitOutcome :=
  let cmShader : Option Unit := if shaderCompiles then some () else none
  match cmShader with
  | some _ => CmInitOutcome.completed
  | none => CmInitOutcome.nullShaderDeref

/-- Embedding of the guard in `Screen::draw_teardown` (screen.cpp:1071):
the color-management draw runs only when both the render pass and the
shader are non-null. -/
def drawTeardownAppliesCm (renderPassNonNull shaderNonNull : Bool) : Bool :=
  renderPassNonNull && shaderNonNull

/-! Helper lemmas shared by the claim theorems. -/

/-- Left inverse law for the adjugate-over-determinant 3×3 inverse. -/
theorem matMul_matInverse_left (A : Mat3) (h : matDet A ≠ 0) :
    matMul (matInverse A) A = mat3Id := by
  obtain ⟨a, b, c, d, e, f, g, i, j⟩ := A
  simp only [matDet] at h
  simp only [matMul, matInverse, matDet, mat3Id, Mat3.mk.injEq]
  refine ⟨?_, ?_, ?_, ?_, ?_, ?_, ?_, ?_, ?_⟩ <;> (field_simp; ring)

/-- Right inverse law for the adjugate-over-determinant 3×3 inverse. -/
theorem matMul_matInverse_right (A : Mat3) (h : matDet A ≠ 0) :
    matMul A (matInverse A) = mat3Id := by
  obtain ⟨a, b, c, d, e, f, g, i, j⟩ := A
  simp only [matDet] at h
  simp only [matMul, matInverse, matDet, mat3Id, Mat3.mk.injEq]
  refine ⟨?_, ?_, ?_, ?_, ?_, ?_, ?_, ?_, ?_⟩ <;> (field_simp; ring)

/-- Exact value of the Rec.709 RGB-to-XYZ matrix at Y = 1. -/
theorem rgb_to_xyz_rec709_eq :
    rgb_to_xyz rec709_chroma 1 =
      Except.ok ⟨5067776/12288897, 871024/4096299, 79184/4096299,
                 4394405/12288897, 8788810/12288897, 4394405/36866691,
                 4435075/24577794, 887015/12288897, 70074185/73733382⟩ := by
  norm_num [rgb_to_xyz, rec709_chroma, white_d65, primariesDet, floatMax, abs,
            Mat3.mk.injEq]

/-- The Rec.709-to-Rec.709 conversion matrix is exactly the identity. -/
theorem chroma_to_rec709_rec709 :
    chroma_to_rec709_matrix rec709_chroma = Except.ok mat3Id := by
  have hA := rgb_to_xyz_rec709_eq
  have hdet : matDet ⟨5067776/12288897, 871024/4096299, 79184/4096299,
                 4394405/12288897, 8788810/12288897, 4394405/36866691,
                 4435075/24577794, 887015/12288897, 70074185/73733382⟩ ≠ 0 := by
    norm_num [matDet]
  simp only [chroma_to_rec709_matrix, xyz_to_rgb, hA, Except.map, bind, Except.bind,
             pure, Except.pure]
  rw [matMul_matInverse_left _ hdet]

/-- Inverting the identity display matrix yields the identity. -/
theorem matInverse_mat3Id : matInverse mat3Id = mat3Id := by
  norm_num [matInverse, matDet, mat3Id, Mat3.mk.injEq]

/-- The inverse sRGB EOTF maps SDR white (code value 1) to linear 1. -/
theorem tfInvSRGB_one : tfInvSRGB 1 = 1 := by
  rw [tfInvSRGB, tfInvLinPow, if_neg (by norm_num)]
  norm_num

/-- The forward sRGB OETF maps linear 1 back to code value 1. -/
theorem tfSRGB_one : tfSRGB 1 = 1 := by
  rw [tfSRGB, tfLinPow, if_neg (by norm_num)]
  norm_num

/-- With the extended-sRGB code (10), a channel value of 1 decodes to linear 1. -/
theorem toLinearRGB_one_extsrgb : toLinearRGB 1 10 = 1 := by
  norm_num [toLinearRGB, tfInvExtSRGB, glslSign, tfInvSRGB_one]

/-- With the sRGB code (9), linear 1 encodes to code value 1. -/
theorem fromLinearRGB_one_srgb : fromLinearRGB 1 9 = 1 := by
  norm_num [fromLinearRGB, tfSRGB_one]

/-- With identity matrix, 80-nit SDR white, sRGB output and no luminance
bounds, the pixel pipeline maps white to white plus the dither offset. -/
theorem colorPassPixel_white (dv : ℝ) :
    colorPassPixel mat3Id 80 0 0 9 dv false ⟨1, 1, 1⟩ =
      ⟨1 + dv, 1 + dv, 1 + dv⟩ := by
  simp only [colorPassPixel, vmap, matVec, luminanceClamp, mat3Id,
             transferWhiteLevel, toLinearRGB_one_extsrgb]
  norm_num [fromLinearRGB_one_srgb]

/-- GLSL sign is odd. -/
theorem glslSign_neg (x : ℝ) : glslSign (-x) = -glslSign x := by
  unfold glslSign
  rcases lt_trichotomy x 0 with h | h | h
  · rw [if_neg (show ¬(-x < 0) by linarith), if_pos (show 0 < -x by linarith),
        if_pos h]
    ring
  · subst h; norm_num
  · rw [if_pos (show -x < 0 by linarith), if_neg (show ¬x < 0 by linarith),
        if_pos h]

/-- BT.1886 forward OETF sends 0 to 0 through its linear branch. -/
theorem tfBT1886_zero : tfBT1886 0 = 0 := by
  rw [tfBT1886, tfLinPow, if_pos (by norm_num [bt1886Cut])]
  ring

/-- BT.1886 inverse EOTF sends 0 to 0 through its linear branch. -/
theorem tfInvBT1886_zero : tfInvBT1886 0 = 0 := by
  rw [tfInvBT1886, tfInvLinPow, if_pos (by norm_num [bt1886Cut])]
  ring

/-! Claim theorems. -/

/-- Claim C1: for a source pixel (1,1,1) with Rec.709 display primaries (so
the display color matrix computed by the chroma engine is exactly the
identity), sRGB output transfer function (code 9), SDR white level 80 nits
and min/max luminance 0 (no clamping), the color-pass pixel function
outputs (1,1,1) up to the additive dither term, which is bounded by half
the dither scale (and hence by the dither scale). -/
theorem colorpass_rec709_srgb_white_roundtrip (dv scale : ℝ)
    (hd : |dv| ≤ scale / 2) :
    displayColorMatrix rec709_chroma = Except.ok mat3Id ∧
    |(colorPassPixel mat3Id 80 0 0 9 dv false ⟨1, 1, 1⟩).r - 1| ≤ scale / 2 ∧
    |(colorPassPixel mat3Id 80 0 0 9 dv false ⟨1, 1, 1⟩).g - 1| ≤ scale / 2 ∧
    |(colorPassPixel mat3Id 80 0 0 9 dv false ⟨1, 1, 1⟩).b - 1| ≤ scale / 2 := by
  have hone : (1 : ℝ) + dv - 1 = dv := by ring
  refine ⟨?_, ?_, ?_, ?_⟩
  · simp only [displayColorMatrix, chroma_to_rec709_rec709, Except.map,
               matInverse_mat3Id]
  · rw [colorPassPixel_white]
    show |1 + dv - 1| ≤ scale / 2
    rw [hone]; exact hd
  · rw [colorPassPixel_white]
    show |1 + dv - 1| ≤ scale / 2
    rw [hone]; exact hd
  · rw [colorPassPixel_white]
    show |1 + dv - 1| ≤ scale / 2
    rw [hone]; exact hd

/-- Witness for C1 at dither value 0 and dither scale 0. -/
theorem colorpass_rec709_srgb_white_roundtrip_witness :
    displayColorMatrix rec709_chroma = Except.ok mat3Id ∧
    |(colorPassPixel mat3Id 80 0 0 9 0 false ⟨1, 1, 1⟩).r - 1| ≤ 0 / 2 ∧
    |(colorPassPixel mat3Id 80 0 0 9 0 false ⟨1, 1, 1⟩).g - 1| ≤ 0 / 2 ∧
    |(colorPassPixel mat3Id 80 0 0 9 0 false ⟨1, 1, 1⟩).b - 1| ≤ 0 / 2 :=
  colorpass_rec709_srgb_white_roundtrip 0 0 (by norm_num)

/-- Claim C2, counterexample: the claim says `primaries_from_code(0)`
(Unspecified) returns the Rec.709 primary set without raising, but
`chroma_from_wp_primaries(0)` reaches `ituth273::from_wp_primaries`, whose
switch covers only codes 1..9 (chroma.cpp:303-317), so code 0 throws the
UnknownPrimaries `std::invalid_argument` instead. -/
theorem wp_primaries_zero_raises :
    chroma_from_wp_primaries 0 =
      Except.error "Unknown wp color primaries: 0" := rfl

/-- Claim C2, amended: `primaries_from_code(0)` raises UnknownPrimaries
exactly like the undefined code 99; the "Unspecified" sentinel that
deterministically maps to Rec.709 with a warning (not an error) is the
H.273 `ColorPrimaries::Unspecified` enumerator handled by
`ituth273::chroma` (chroma.cpp:239), not the integer wp code 0. -/
theorem wp_primaries_code_dispatch :
    chroma_from_wp_primaries 0 =
        Except.error "Unknown wp color primaries: 0" ∧
    chroma_from_wp_primaries 99 =
        Except.error "Unknown wp color primaries: 99" ∧
    ituth273Chroma ColorPrimaries.Unspecified = rec709_chroma :=
  ⟨rfl, rfl, rfl⟩

/-- Claim C3: a white point with y = 0 makes `rgb_to_xyz` fail with the
white-point degeneracy error for every Y, and collinear primaries (zero
determinant `d`) make `rgb_to_xyz` fail with a degenerate-input error for
every Y, instead of returning a matrix (the float code would otherwise
divide by zero and produce Inf/NaN). -/
theorem rgb_to_xyz_degenerate_inputs :
    (∀ (ch : Chroma) (Y : ℚ), ch.white.y = 0 →
       rgb_to_xyz ch Y = Except.error ChromaError.degenerateWhite) ∧
    (∀ (ch : Chroma) (Y : ℚ), primariesDet ch = 0 →
       ∃ e, rgb_to_xyz ch Y = Except.error e) := by
  constructor
  · intro ch Y h
    unfold rgb_to_xyz
    rw [if_pos ⟨by rw [h]; norm_num, by rw [h]; simp⟩]
  · intro ch Y h
    unfold rgb_to_xyz
    by_cases hw : |ch.white.y| ≤ 1 ∧ |ch.white.x * Y| ≥ |ch.white.y| * floatMax
    · exact ⟨ChromaError.degenerateWhite, by rw [if_pos hw]⟩
    · refine ⟨ChromaError.degenerateMatrix, ?_⟩
      rw [if_neg hw]
      simp only [h, abs_zero, zero_mul]
      rw [if_pos ⟨by norm_num, Or.inl (abs_nonneg _)⟩]

/-- Witness for C3: a Rec.709-like set whose white point has y = 0, and a
primary set whose three primaries share y = 33/100 (collinear). -/
theorem rgb_to_xyz_degenerate_inputs_witness :
    rgb_to_xyz ⟨⟨64/100, 33/100⟩, ⟨30/100, 60/100⟩, ⟨15/100, 6/100⟩,
                ⟨3127/10000, 0⟩⟩ 1 =
      Except.error ChromaError.degenerateWhite ∧
    ∃ e, rgb_to_xyz ⟨⟨1/10, 33/100⟩, ⟨2/10, 33/100⟩, ⟨3/10, 33/100⟩,
                     white_d65⟩ 1 = Except.error e :=
  ⟨rgb_to_xyz_degenerate_inputs.1 _ 1 rfl,
   rgb_to_xyz_degenerate_inputs.2 _ 1 (by norm_num [primariesDet])⟩

/-- Claim C4, counterexample: the claim says an empty environment value
leaves the queried SDR white level authoritative with no error, but
`getenv` returns a non-null pointer for an empty variable, so
screen.cpp:292 calls `std::stof("")`, which throws
`std::invalid_argument` instead of returning the query. -/
theorem sdr_white_env_empty_raises :
    screenInitSdrWhiteLevel (some "") 100 =
      Except.error "stof: invalid_argument" := rfl

/-- Claim C4, amended: an absent variable leaves the queried level
authoritative with no error; a set variable is parsed with `std::stof` and
the parsed value overrides the query; a set-but-unparseable value — the
empty string included — raises the `std::stof` parse error rather than
falling back to the query. -/
theorem sdr_white_env_override :
    (∀ q : ℚ, screenInitSdrWhiteLevel none q = Except.ok q) ∧
    (∀ (s : String) (q v : ℚ), stofModel s = Except.ok v →
        screenInitSdrWhiteLevel (some s) q = Except.ok v) ∧
    (∀ q : ℚ, screenInitSdrWhiteLevel (some "") q =
        Except.error "stof: invalid_argument") ∧
    screenInitSdrWhiteLevel (some "123.5") 80 = Except.ok (247 / 2) := by
  refine ⟨fun q => rfl, fun s q v h => h, fun q => rfl, ?_⟩
  simp [screenInitSdrWhiteLevel, stofModel]
  norm_num

/-- Witness for C4 at the parseable override "80" with queried level 100. -/
theorem sdr_white_env_override_witness :
    screenInitSdrWhiteLevel (some "80") 100 = Except.ok 80 :=
  sdr_white_env_override.2.1 "80" 100 80 (by simp [stofModel])

/-- Claim C5: `xyz_to_rgb` is the exact matrix inverse of `rgb_to_xyz`
(both as code structure and as algebra: the adjugate-over-determinant
inverse is a two-sided inverse whenever the determinant is nonzero), and
consequently `chroma_to_rec709_matrix(rec709_chroma)` — the product
`xyz_to_rgb(rec709, 1) * rgb_to_xyz(rec709, 1)` — is exactly the 3×3
identity matrix, a fortiori within tolerance 1e-5. -/
theorem xyz_matrix_inverse_roundtrip :
    (∀ (ch : Chroma) (Y : ℚ),
        xyz_to_rgb ch Y = (rgb_to_xyz ch Y).map matInverse) ∧
    (∀ A : Mat3, matDet A ≠ 0 →
        matMul (matInverse A) A = mat3Id ∧ matMul A (matInverse A) = mat3Id) ∧
    chroma_to_rec709_matrix rec709_chroma = Except.ok mat3Id :=
  ⟨fun _ _ => rfl,
   fun A h => ⟨matMul_matInverse_left A h, matMul_matInverse_right A h⟩,
   chroma_to_rec709_rec709⟩

/-- Witness for C5 at the identity matrix, whose determinant is 1. -/
theorem xyz_matrix_inverse_roundtrip_witness :
    matMul (matInverse mat3Id) mat3Id = mat3Id ∧
    matMul mat3Id (matInverse mat3Id) = mat3Id :=
  xyz_matrix_inverse_roundtrip.2.1 mat3Id (by norm_num [matDet, mat3Id])

/-- Claim C6: the dither matrix at scale 0 is the all-zero 8×8 grid, and at
any scale s > 0 its 64 entries all lie in [-s/2, s/2] and form a
permutation of the 64 evenly spaced values (k/64 - 1/2)·s, k = 0..63. -/
theorem dither_matrix_zero_bounds_perm :
    dither_matrix 0 = List.replicate 64 0 ∧
    ∀ s : ℚ, 0 < s →
      (∀ x ∈ dither_matrix s, -(s / 2) ≤ x ∧ x ≤ s / 2) ∧
      (dither_matrix s).Perm
        ((List.range 64).map fun k : ℕ => ((k : ℚ) / 64 - 1 / 2) * s) := by
  refine ⟨?_, ?_⟩
  · rw [List.eq_replicate_iff]
    constructor
    · simp [dither_matrix, bayerIndices]
    · intro b hb
      obtain ⟨v, hv, rfl⟩ := List.mem_map.1 hb
      ring
  · intro s hs
    have hbnd : ∀ w ∈ bayerIndices, w ≤ 63 := by decide
    constructor
    · intro x hx
      obtain ⟨v, hv, rfl⟩ := List.mem_map.1 hx
      have hv0 : (0:ℚ) ≤ (v:ℚ) := by positivity
      have hv63 : (v:ℚ) ≤ 63 := by exact_mod_cast hbnd v hv
      constructor <;> nlinarith
    · have hperm : bayerIndices.Perm (List.range 64) := by decide
      have hmap := hperm.map (fun v : ℕ => ((v : ℚ) / 8 / 8 - 1 / 2) * s)
      refine hmap.trans (List.Perm.of_eq ?_)
      apply List.map_congr_left
      intro k hk
      ring

/-- Witness for C6 at scale 1. -/
theorem dither_matrix_zero_bounds_perm_witness :
    (dither_matrix 1).Perm
      ((List.range 64).map fun k : ℕ => ((k : ℚ) / 64 - 1 / 2) * 1) :=
  (dither_matrix_zero_bounds_perm.2 1 (by norm_num)).2

/-- Claim C7: for every x ≥ 0 the xvYCC forward and inverse transfer
functions agree with the BT.1886 forward and inverse transfer functions,
and both xvYCC mappings are odd-symmetric. -/
theorem xvycc_bt1886_agreement :
    (∀ x : ℝ, 0 ≤ x → tfXVYCC x = tfBT1886 x ∧ tfInvXVYCC x = tfInvBT1886 x) ∧
    (∀ x : ℝ, tfXVYCC (-x) = -tfXVYCC x ∧ tfInvXVYCC (-x) = -tfInvXVYCC x) := by
  constructor
  · intro x hx
    rcases eq_or_lt_of_le hx with h | h
    · rw [← h]
      constructor
      · rw [tfXVYCC, glslSign, if_neg (by norm_num), if_neg (by norm_num),
            zero_mul, tfBT1886_zero]
      · rw [tfInvXVYCC, glslSign, if_neg (by norm_num), if_neg (by norm_num),
            zero_mul, tfInvBT1886_zero]
    · constructor
      · rw [tfXVYCC, glslSign, if_neg (by linarith), if_pos h, one_mul,
            abs_of_pos h]
      · rw [tfInvXVYCC, glslSign, if_neg (by linarith), if_pos h, one_mul,
            abs_of_pos h]
  · intro x
    constructor
    · rw [tfXVYCC, tfXVYCC, glslSign_neg, abs_neg, neg_mul]
    · rw [tfInvXVYCC, tfInvXVYCC, glslSign_neg, abs_neg, neg_mul]

/-- Witness for C7 at x = 2. -/
theorem xvycc_bt1886_agreement_witness :
    tfXVYCC 2 = tfBT1886 2 ∧ tfInvXVYCC 2 = tfInvBT1886 2 :=
  xvycc_bt1886_agreement.1 2 (by norm_num)

/-- Claim C8: the claim holds about the intent, but the code has a bug.
When shader compilation fails, `Screen::initialize` catches and logs the
exception (screen.cpp:889-891), yet then unconditionally dereferences the
still-null `m_cm_shader` in `set_buffer` (screen.cpp:896) instead of
completing in a degraded state; with a compiled shader construction
completes, and the draw-time guard (screen.cpp:1071) skips the
color-management draw whenever the shader is null. -/
theorem cm_shader_failure_null_deref :
    screenCmShaderInit false = CmInitOutcome.nullShaderDeref ∧
    screenCmShaderInit true = CmInitOutcome.completed ∧
    drawTeardownAppliesCm true false = false :=
  ⟨rfl, rfl, rfl⟩

/-- Claim C9: the transfer-function dispatchers are total over all integer
codes; every code outside the defined set 1..13 takes the final else
branch, returning the sRGB result (`tfInvSRGB` / `tfSRGB`) rather than
failing. -/
theorem tf_dispatch_total_default_srgb :
    ∀ (x : ℝ) (tf : ℤ), tf < 1 ∨ 13 < tf →
      toLinearRGB x tf = tfInvSRGB x ∧ fromLinearRGB x tf = tfSRGB x := by
  intro x tf h
  unfold toLinearRGB fromLinearRGB
  simp only [if_neg (show ¬tf = 5 by omega), if_neg (show ¬tf = 11 by omega),
             if_neg (show ¬tf = 2 by omega), if_neg (show ¬tf = 3 by omega),
             if_neg (show ¬tf = 13 by omega), if_neg (show ¬tf = 10 by omega),
             if_neg (show ¬tf = 1 by omega), if_neg (show ¬tf = 4 by omega),
             if_neg (show ¬tf = 6 by omega), if_neg (show ¬tf = 7 by omega),
             if_neg (show ¬tf = 8 by omega), if_neg (show ¬tf = 12 by omega),
             if_neg (show ¬tf = 9 by omega)]
  trivial

/-- Witness for C9 at code 0 (and input 1). -/
theorem tf_dispatch_total_default_srgb_witness :
    toLinearRGB 1 0 = tfInvSRGB 1 ∧ fromLinearRGB 1 0 = tfSRGB 1 :=
  tf_dispatch_total_default_srgb 1 0 (Or.inl (by norm_num))

/-- Claim C10: the per-pixel luminance clamp runs exactly when
max_luminance > 0: with max_luminance = 0 the input passes through
unchanged (any positive min_luminance is ignored), and with
max_luminance > 0 and min_luminance = 0 every negative channel is raised
to 0. -/
theorem luminance_clamp_iff_max_positive :
    (∀ (minLum : ℝ) (v : Vec3R), luminanceClamp minLum 0 v = v) ∧
    (∀ (minLum maxLum : ℝ) (v : Vec3R), 0 < maxLum →
        luminanceClamp minLum maxLum v =
          vmap (fun x => min (max x minLum) maxLum) v) ∧
    (∀ (maxLum : ℝ) (v : Vec3R), 0 < maxLum →
        (v.r < 0 → (luminanceClamp 0 maxLum v).r = 0) ∧
        (v.g < 0 → (luminanceClamp 0 maxLum v).g = 0) ∧
        (v.b < 0 → (luminanceClamp 0 maxLum v).b = 0)) := by
  refine ⟨?_, ?_, ?_⟩
  · intro minLum v
    rw [luminanceClamp, if_neg (lt_irrefl 0)]
  · intro minLum maxLum v h
    rw [luminanceClamp, if_pos h]
  · intro maxLum v h
    refine ⟨?_, ?_, ?_⟩ <;>
      · intro hneg
        rw [luminanceClamp, if_pos h]
        show min (max _ 0) maxLum = 0
        rw [max_eq_right (le_of_lt hneg), min_eq_left (le_of_lt h)]

/-- Witness for C10: with max = 0 a positive min is ignored, and with
max = 1 and min = 0 a negative red channel is raised to 0. -/
theorem luminance_clamp_iff_max_positive_witness :
    luminanceClamp 5 0 ⟨1, 2, 3⟩ = ⟨1, 2, 3⟩ ∧
    (luminanceClamp 0 1 ⟨-1, 2, 3⟩).r = 0 :=
  ⟨luminance_clamp_iff_max_positive.1 5 ⟨1, 2, 3⟩,
   (luminance_clamp_iff_max_positive.2.2 1 ⟨-1, 2, 3⟩ (by norm_num)).1
     (by norm_num)⟩

end Nanogui
